import Mathlib

/-!
Verification of the trading-checklist engine (src/src/DailyChecklistHistory.tsx).

Shallow embedding conventions:
* JavaScript numbers are modelled as `Option ℚ`, where `none` stands for a
  non-finite result (NaN); all finite values occurring in this code are
  rationals.  JS comparisons involving NaN are false, and NaN propagates
  through arithmetic, which the `jsLe`/`jsAdd`/`jsDiv` helpers mirror.
  (`jsDiv a 0` would be `Infinity` in JS for `a ≠ 0`; in this code base the
  numerator of every guarded-or-not division is a sub-count of the
  denominator, so only `0/0 = NaN` ever arises from a zero denominator.)
* Loosely-typed backend payloads (`condition: any`) are modelled by the
  `JVal` type; `JVal.jnum none` is a NaN payload, `JVal.jsessions` is a
  payload value that is a well-formed session array (the TS code stores it
  through an unchecked `as RuleSession[]` cast).
* Fallible operations return `Except`.
-/

namespace TradingChecklist

/-- JavaScript number: `some q` is a finite value, `none` is NaN. -/
abbrev JsNum := Option ℚ

/-- JS `a + b` on numbers; NaN propagates. -/
def jsAdd : JsNum → JsNum → JsNum
  | some a, some b => some (a + b)
  | _, _ => none

/-- JS `a / b` on numbers; NaN propagates and a zero denominator is
non-finite (NaN when the numerator is also 0, which is the only zero-
denominator case reached in this code). -/
def jsDiv : JsNum → JsNum → JsNum
  | some a, some b => if b = 0 then none else some (a / b)
  | _, _ => none

/-- JS `a <= b` on numbers; any comparison with NaN is false. -/
def jsLe : JsNum → JsNum → Bool
  | some a, some b => decide (a ≤ b)
  | _, _ => false

/-- JS `a >= b` on numbers. -/
def jsGe (a b : JsNum) : Bool := jsLe b a

-- ===== String helpers (JS `toLowerCase` / `includes`) =====

/-- Whether `needle` is an initial segment of `hay` (character lists). -/
def listStartsWith : List Char → List Char → Bool
  | _, [] => true
  | [], _ :: _ => false
  | a :: as, b :: bs => a == b && listStartsWith as bs

/-- Whether `needle` occurs contiguously inside `hay` (character lists). -/
def listContainsSub : List Char → List Char → Bool
  | [], needle => needle.isEmpty
  | a :: t, needle => listStartsWith (a :: t) needle || listContainsSub t needle

/-- JS `hay.includes(needle)` on strings. -/
def strIncludes (hay needle : String) : Bool :=
  listContainsSub hay.toList needle.toList

/-- Lowers one ASCII letter (the category names being matched are ASCII). -/
def lowerChar (c : Char) : Char :=
  if c.toNat ≥ 65 ∧ c.toNat ≤ 90 then Char.ofNat (c.toNat + 32) else c

/-- JS `s.toLowerCase()` (faithful on the ASCII names used for matching). -/
def strLower (s : String) : String := String.mk (s.toList.map lowerChar)

-- ===== Number-to-string (JS template interpolation) =====

/-- Smallest exponent `k ≤ 30` with `d ∣ 10 ^ k`, if any. -/
def pow10Exp (d : Nat) : Option Nat :=
  (List.range 31).find? (fun k => 10 ^ k % d = 0)

/-- Drops trailing `'0'` characters. -/
def stripTrailingZeros (cs : List Char) : List Char :=
  (cs.reverse.dropWhile (fun c => c == '0')).reverse

/-- Renders a JS number as JS string interpolation does: `"NaN"` for NaN,
plain decimal notation for terminating decimals (every value this
application produces terminates); non-terminating rationals fall back to a
fraction rendering that the application never reaches. -/
def jsNumToString (x : JsNum) : String :=
  match x with
  | none => "NaN"
  | some q =>
    let sign := if q < 0 then "-" else ""
    let n := q.num.natAbs
    let d := q.den
    match pow10Exp d with
    | some k =>
      let m := n * (10 ^ k / d)
      let ip := m / 10 ^ k
      let fp := m % 10 ^ k
      if fp = 0 then sign ++ toString ip
      else
        let fs := toString fp
        let fs := String.mk (List.replicate (k - fs.length) '0') ++ fs
        let fs := String.mk (stripTrailingZeros fs.toList)
        sign ++ toString ip ++ "." ++ fs
    | none => sign ++ toString n ++ "/" ++ toString d

-- ===== Data model (the exported types of DailyChecklistHistory.tsx) =====

/-- Severity of a rule verdict (`level?: "info" | "warning" | "error"`). -/
inductive Level where
  | info
  | warning
  | error
deriving DecidableEq, Repr

/-- Measured value / threshold of a verdict (`number | string | null`). -/
inductive RVal where
  | num (q : JsNum)
  | str (s : String)
  | nullv
deriving DecidableEq, Repr

/-- One rule's verdict (`RuleCheck`).  Optional TS fields are `Option`;
`value`/`limit` use `none` for an omitted field and `some .nullv` for an
explicit `null`. -/
structure RuleCheck where
  key : String
  title : String
  description : Option String
  pass : Bool
  level : Option Level
  value : Option RVal
  limit : Option RVal
  notes : Option String
deriving DecidableEq, Repr

/-- A configured trading session (`RuleSession`). -/
structure RuleSession where
  start : String
  stop : String
  tz : String
  label : Option String
deriving DecidableEq, Repr

/-- Typed rule configuration (`RuleSettings`).  Numeric thresholds are JS
numbers (`JsNum`) because the configuration reconciler can write NaN into
them via `Number(...)` coercion of malformed payloads. -/
structure RuleSettings where
  maxRiskPercent : JsNum
  maxPositions : JsNum
  maxLotsPerTrade : JsNum
  maxSLPercent : JsNum
  maxDailyDDPercent : JsNum
  minRRAllowed : JsNum
  allowedSessions : List RuleSession
  violateOutsideSession : Bool
  maxSLTPChangePercent : JsNum
  requireFirstTradeGoal : Bool
  requireJournalBeforeNewTrade : Bool
deriving DecidableEq, Repr

/-- A planned entry time window of a pre-trade plan. -/
structure PlanWindow where
  start : String
  stop : String
  label : Option String
deriving DecidableEq, Repr

/-- A declared pre-trade plan (`PreTradePlan`). -/
structure PreTradePlan where
  mood : String
  plannedTrades : ℚ
  plannedWindows : List PlanWindow
  expectedHighTime : Option String
  expectedLowTime : Option String
  rrTarget : ℚ
  notes : Option String
  submittedAt : String
deriving DecidableEq, Repr

/-- A pre-entry journal record (`TradeJournalEntry`).  The rule evaluator
only inspects how many entries exist for a date. -/
structure TradeJournalEntry where
  id : String
  createdAt : String
  mood : String
  conditions : String
  entry : ℚ
  lots : ℚ
  sl : ℚ
  rr : ℚ
  valuePerPoint : ℚ
  equityAtEntry : Option ℚ
  riskCash : Option ℚ
  riskPct : Option ℚ
  profitAtTP : Option ℚ
  lossAtSL : Option ℚ
deriving DecidableEq, Repr

/-- One trader's calendar day (`ChecklistDay`).  The demo-only
`_telemetry` field is omitted: no engine operation reads it. -/
structure ChecklistDay where
  date : String
  trader : String
  equityOpen : Option ℚ
  equityClose : Option ℚ
  ddPercent : Option ℚ
  journalUrl : Option (Option String)
  rules : List RuleCheck
  tradesCount : ℚ
deriving DecidableEq, Repr

/-- One retained plan save (`PlanHistoryEntry`); `savedAt` is the epoch
timestamp of `new Date().toISOString()` at save time, modelled as a
natural number so that "newest first" is expressible. -/
structure PlanHistoryEntry where
  id : String
  savedAt : Nat
  plan : PreTradePlan
deriving DecidableEq, Repr

-- ===== Loosely-typed backend payloads =====

/-- A value inside an `APIRule.condition` payload (`condition: any`).
`jnum none` is a NaN number, `jsessions` is a payload that is a
well-formed session array (stored by the TS code through an unchecked
`as RuleSession[]` cast; other truthy non-array payloads are outside this
typed model and are never produced by the backend schema). -/
inductive JVal where
  | jnull
  | jbool (b : Bool)
  | jnum (q : JsNum)
  | jstr (s : String)
  | jsessions (ss : List RuleSession)
deriving DecidableEq, Repr

/-- JS truthiness of a payload value. -/
def jsTruthy : JVal → Bool
  | .jnull => false
  | .jbool b => b
  | .jnum none => false
  | .jnum (some q) => decide (q ≠ 0)
  | .jstr s => decide (s ≠ "")
  | .jsessions _ => true

/-- Parses the plain decimal notations that JS `Number(string)` accepts
(optional sign, digits, optional fraction); other strings are NaN.
Leading/trailing whitespace is trimmed as JS does.  (Exponent and hex
notations are not produced by the backend payloads and are not modelled.) -/
def jsStringToNum (s : String) : JsNum :=
  let cs := (s.toList.dropWhile (fun c => c == ' ')).reverse.dropWhile (fun c => c == ' ') |>.reverse
  if cs.isEmpty then some 0
  else
    let (neg, body) :=
      match cs with
      | '-' :: t => (true, t)
      | '+' :: t => (false, t)
      | t => (false, t)
    let ip := body.takeWhile Char.isDigit
    let rest := body.dropWhile Char.isDigit
    let digitsVal := fun (l : List Char) => l.foldl (fun a c => a * 10 + (c.toNat - 48)) (0 : Nat)
    let mk := fun (q : ℚ) => some (if neg then -q else q)
    match rest with
    | [] => if ip.isEmpty then none else mk (digitsVal ip)
    | '.' :: frac =>
      if frac.all Char.isDigit ∧ ¬(ip.isEmpty ∧ frac.isEmpty) then
        mk ((digitsVal ip : ℚ) + (digitsVal frac : ℚ) / (10 ^ frac.length : ℚ))
      else none
    | _ => none

/-- JS `Number(v)` coercion of a payload value.  `Number(null) = 0`,
booleans coerce to 0/1, strings parse as decimals, an empty array
coerces to 0 and any other array to NaN. -/
def jsToNum : JVal → JsNum
  | .jnull => some 0
  | .jbool b => some (if b then 1 else 0)
  | .jnum q => q
  | .jstr s => jsStringToNum s
  | .jsessions [] => some 0
  | .jsessions (_ :: _) => none

/-- The unchecked `as RuleSession[]` cast: a session-array payload keeps
its sessions; the cast of any other value is outside the typed model. -/
def sessionsOf : JVal → List RuleSession
  | .jsessions ss => ss
  | _ => []

/-- An externally stored rule record (`APIRule`); the opaque `condition`
payload is an object, modelled as an association list with unique keys. -/
structure APIRule where
  id : ℚ
  account_number : ℚ
  name : String
  description : Option String
  condition : List (String × JVal)
  created_at : Option String
  updated_at : Option String
deriving DecidableEq, Repr

/-- Object property lookup on a condition payload (absent key ↦ `none`). -/
def condGet (c : List (String × JVal)) (k : String) : Option JVal :=
  (c.find? (fun p => p.1 == k)).map Prod.snd

/-- JS object spread `{...c, k: v}`: replaces `k` in place when present,
appends it otherwise. -/
def condSet (c : List (String × JVal)) (k : String) (v : JVal) : List (String × JVal) :=
  if c.any (fun p => p.1 == k) then c.map (fun p => if p.1 == k then (k, v) else p)
  else c ++ [(k, v)]

-- ===== Configuration Reconciler (forward mapping) =====

/-- The `byName` lookup inside `parseRulesToSettings`:
`rules.find(r => r.name.toLowerCase().includes(needle.toLowerCase()))`. -/
def byNameIn (rules : List APIRule) (needle : String) : Option APIRule :=
  rules.find? (fun r => strIncludes (strLower r.name) (strLower needle))

/-- The `x?.condition?.field != null` access pattern: the payload entry of
a possibly-absent record, with an absent record, an absent key, or an
explicit `null` all yielding `none`. -/
def fieldNN (r : Option APIRule) (k : String) : Option JVal :=
  match r with
  | none => none
  | some rule =>
    match condGet rule.condition k with
    | none => none
    | some .jnull => none
    | some v => some v

/-- The `allowed_sessions` payload of the matched sessions record; this
field is guarded by truthiness (`if (sessions?.condition?.allowed_sessions)`)
rather than by `!= null`. -/
def sessionsPayload (rules : List APIRule) : Option JVal :=
  match byNameIn rules "Allowed Trading Sessions" with
  | none => none
  | some r => condGet r.condition "allowed_sessions"

/-- Forward reconciliation `parseRulesToSettings(rules, base)`: each known
category, matched by case-insensitive substring on the record name,
overrides the corresponding settings field when its payload entry passes
the source's `!= null` (resp. truthiness, for `allowed_sessions`) guard;
every other field keeps the base value.  The source mutates a copy of
`base` field by field; since each field is written by exactly one branch,
the equivalent single record literal is used here. -/
def parseRulesToSettings (rules : List APIRule) (base : RuleSettings) : RuleSettings :=
  { maxRiskPercent :=
      match fieldNN (byNameIn rules "Max Risk") "max_risk_percent" with
      | some v => jsToNum v
      | none => base.maxRiskPercent
    maxPositions :=
      match fieldNN (byNameIn rules "No Overtrade") "max_positions" with
      | some v => jsToNum v
      | none => base.maxPositions
    maxLotsPerTrade :=
      match fieldNN (byNameIn rules "No Overtrade") "max_lots_per_trade" with
      | some v => jsToNum v
      | none => base.maxLotsPerTrade
    maxSLPercent :=
      match fieldNN (byNameIn rules "Max SL") "max_sl_percent" with
      | some v => jsToNum v
      | none => base.maxSLPercent
    maxDailyDDPercent :=
      match fieldNN (byNameIn rules "Max Daily DD") "max_dd_percent" with
      | some v => jsToNum v
      | none => base.maxDailyDDPercent
    minRRAllowed :=
      match fieldNN (byNameIn rules "RR Target Declared") "min_rr_allowed" with
      | some v => jsToNum v
      | none => base.minRRAllowed
    allowedSessions :=
      match sessionsPayload rules with
      | some v => if jsTruthy v then sessionsOf v else base.allowedSessions
      | none => base.allowedSessions
    violateOutsideSession :=
      match fieldNN (byNameIn rules "Allowed Trading Sessions") "violate_outside_session" with
      | some v => jsTruthy v
      | none => base.violateOutsideSession
    requireFirstTradeGoal :=
      match fieldNN (byNameIn rules "First Trade Must Have Goal") "require_first_trade_goal" with
      | some v => jsTruthy v
      | none => base.requireFirstTradeGoal
    maxSLTPChangePercent :=
      match fieldNN (byNameIn rules "Max SL/TP Change") "max_sl_tp_change_percent" with
      | some v => jsToNum v
      | none => base.maxSLTPChangePercent
    requireJournalBeforeNewTrade :=
      match fieldNN (rules.find? (fun r => strIncludes (strLower r.name) "journal"))
          "require_journal_before_new_trade" with
      | some v => jsTruthy v
      | none => base.requireJournalBeforeNewTrade }

-- ===== Configuration Reconciler (reverse mapping) =====

/-- Patches one record from the current settings, following the else-if
chain of `saveSettingsToBackend`: the first matching category updates the
condition payload (and, for some categories, regenerates the display name
and description from the new value); a record matching no category is
returned unchanged (`{...rule}`). -/
def patchRule (settings : RuleSettings) (r : APIRule) : APIRule :=
  let n := strLower r.name
  if strIncludes n "max risk" then
    { r with
      condition := condSet r.condition "max_risk_percent" (.jnum settings.maxRiskPercent)
      name := "Max Risk " ++ jsNumToString settings.maxRiskPercent ++ "%"
      description := some ("Không được để rủi ro vượt quá " ++
        jsNumToString settings.maxRiskPercent ++ "% tổng tài khoản") }
  else if strIncludes n "no overtrade" then
    { r with
      condition := condSet (condSet r.condition "max_positions" (.jnum settings.maxPositions))
        "max_lots_per_trade" (.jnum settings.maxLotsPerTrade) }
  else if strIncludes n "max sl" && !strIncludes n "change" then
    { r with
      condition := condSet r.condition "max_sl_percent" (.jnum settings.maxSLPercent)
      name := "Max SL " ++ jsNumToString settings.maxSLPercent ++ "%"
      description := some ("Stop loss không được vượt quá " ++
        jsNumToString settings.maxSLPercent ++ "% tổng tài khoản") }
  else if strIncludes n "max daily dd" then
    { r with
      condition := condSet r.condition "max_dd_percent" (.jnum settings.maxDailyDDPercent)
      name := "Max Daily DD " ++ jsNumToString settings.maxDailyDDPercent ++ "%"
      description := some ("Tổng sụt giảm vốn (drawdown) trong ngày không vượt quá " ++
        jsNumToString settings.maxDailyDDPercent ++ "% equity đầu ngày") }
  else if strIncludes n "rr target declared" then
    { r with condition := condSet r.condition "min_rr_allowed" (.jnum settings.minRRAllowed) }
  else if strIncludes n "allowed trading sessions" then
    { r with
      condition := condSet (condSet r.condition "allowed_sessions" (.jsessions settings.allowedSessions))
        "violate_outside_session" (.jbool settings.violateOutsideSession) }
  else if strIncludes n "first trade must have goal" then
    { r with
      condition := condSet r.condition "require_first_trade_goal" (.jbool settings.requireFirstTradeGoal) }
  else if strIncludes n "max sl/tp change" then
    { r with
      condition := condSet r.condition "max_sl_tp_change_percent" (.jnum settings.maxSLTPChangePercent)
      name := "Max SL/TP Change " ++ jsNumToString settings.maxSLTPChangePercent ++ "%"
      description := some ("Không được thay đổi SL/TP quá " ++
        jsNumToString settings.maxSLTPChangePercent ++ "% so với khoảng cách ban đầu") }
  else r

/-- Whether a record name matches none of the eight category guards of the
reverse mapping (each guard tested exactly as the source tests it). -/
def matchesNoCategory (name : String) : Bool :=
  let n := strLower name
  !(strIncludes n "max risk" || strIncludes n "no overtrade" ||
    (strIncludes n "max sl" && !strIncludes n "change") ||
    strIncludes n "max daily dd" || strIncludes n "rr target declared" ||
    strIncludes n "allowed trading sessions" || strIncludes n "first trade must have goal" ||
    strIncludes n "max sl/tp change")

/-- Reverse mapping `saveSettingsToBackend(settings, existing)`:
`if (!existing || !existing.length) throw new Error("No server rules loaded yet")`,
otherwise the patched collection `existing.map(patchRule)` is the payload
of the bulk-upsert request (the HTTP transport is outside the engine). -/
def saveSettingsToBackend (settings : RuleSettings) (existing : Option (List APIRule)) :
    Except String (List APIRule) :=
  match existing with
  | none => .error "No server rules loaded yet"
  | some [] => .error "No server rules loaded yet"
  | some rules => .ok (rules.map (patchRule settings))

-- ===== Rule Evaluator =====

/-- One day's telemetry, as consumed by the rule construction in
`buildFakeDay`.  The demo derives these four quantities from a seeded
pseudo-random generator (a stand-in for the Telemetry Provider); the rules
depend on the day only through them, so they are parameters here. -/
structure Telemetry where
  trades : ℚ
  riskPerTrade : ℚ
  dd : ℚ
  allHaveSL : Bool
deriving DecidableEq, Repr

/-- Renders one allowed session for the `session_allowed` note. -/
def sessionNote (s : RuleSession) : String :=
  (s.label.getD "") ++ " " ++ s.start ++ "-" ++ s.stop ++ " (" ++ s.tz ++ ")"

/-- The seven-element `rules` array literal of `buildFakeDay`, with the
telemetry quantities as parameters. -/
def buildFakeDayRules (settings : RuleSettings) (t : Telemetry) : List RuleCheck :=
  [ { key := "max_risk_percent"
      title := "Max Risk " ++ jsNumToString settings.maxRiskPercent ++ "%"
      description := some "Risk per trade must not exceed % of total account"
      pass := jsLe (some t.riskPerTrade) settings.maxRiskPercent
      value := some (.str (jsNumToString (some t.riskPerTrade) ++ "%"))
      limit := some (.str (jsNumToString settings.maxRiskPercent ++ "%"))
      level := some (if jsLe (some t.riskPerTrade) settings.maxRiskPercent then .info else .error)
      notes := some (if jsLe (some t.riskPerTrade) settings.maxRiskPercent then
        "Within risk limit" else "Risk exceeded") },
    { key := "no_overtrade"
      title := "No Overtrade"
      description := some "Must not open too many positions at once"
      pass := jsLe (some t.trades) settings.maxPositions
      value := some (.num (some t.trades))
      limit := some (.num settings.maxPositions)
      level := some (if jsLe (some t.trades) settings.maxPositions then .info else .warning)
      notes := some (if jsLe (some t.trades) settings.maxPositions then
        "Position count OK" else "Too many positions: " ++ jsNumToString (some t.trades)) },
    { key := "stop_loss_required"
      title := "Stop Loss Required"
      description := some "Stop loss must be set for every trade"
      pass := t.allHaveSL
      value := none
      limit := none
      level := some (if t.allHaveSL then .info else .error)
      notes := some (if t.allHaveSL then "All trades have SL" else "Some trades missing SL") },
    { key := "max_sl_percent"
      title := "Max SL " ++ jsNumToString settings.maxSLPercent ++ "%"
      description := some "Stop loss must not exceed % of total account"
      pass := jsLe (some t.riskPerTrade) settings.maxSLPercent
      value := some (.str (jsNumToString (some t.riskPerTrade) ++ "%"))
      limit := some (.str (jsNumToString settings.maxSLPercent ++ "%"))
      level := some (if jsLe (some t.riskPerTrade) settings.maxSLPercent then .info else .error)
      notes := some (if jsLe (some t.riskPerTrade) settings.maxSLPercent then
        "SL within limit" else "SL exceeded") },
    { key := "max_daily_dd"
      title := "Max Daily DD " ++ jsNumToString settings.maxDailyDDPercent ++ "%"
      description := some "Daily drawdown must not exceed % of opening equity"
      pass := jsLe (some t.dd) settings.maxDailyDDPercent
      value := some (.str (jsNumToString (some t.dd) ++ "%"))
      limit := some (.str (jsNumToString settings.maxDailyDDPercent ++ "%"))
      level := some (if jsLe (some t.dd) settings.maxDailyDDPercent then .info else .error)
      notes := some (if jsLe (some t.dd) settings.maxDailyDDPercent then
        "DD within limit" else "DD exceeded") },
    { key := "session_allowed"
      title := "Allowed Trading Sessions"
      description := some "Only trade within the defined sessions"
      pass := true
      value := none
      limit := none
      level := some .info
      notes := some (
        let joined := String.intercalate "; " (settings.allowedSessions.map sessionNote)
        if joined = "" then "No sessions set" else joined) },
    { key := "max_sl_tp_change_percent"
      title := "Max SL/TP Change " ++ jsNumToString settings.maxSLTPChangePercent ++ "%"
      description := some "SL/TP changes must not exceed % of initial distance"
      pass := true
      value := none
      limit := none
      level := some .warning
      notes := some "Realtime check required" } ]

/-- JS truthiness of an optional string (`!!plan.expectedHighTime`):
absent or empty is false. -/
def truthyStr : Option String → Bool
  | none => false
  | some s => decide (s ≠ "")

/-- The `rrOk` plan-completeness test of `listWithExtras`:
`!!plan && plan.rrTarget >= settings.minRRAllowed && !!plan.mood &&
plan.plannedTrades > 0 && plan.plannedWindows.length > 0 &&
!!plan.expectedHighTime && !!plan.expectedLowTime`. -/
def rrOk (settings : RuleSettings) (plan : Option PreTradePlan) : Bool :=
  match plan with
  | none => false
  | some p =>
    jsGe (some p.rrTarget) settings.minRRAllowed && decide (p.mood ≠ "") &&
      decide (0 < p.plannedTrades) && decide (0 < p.plannedWindows.length) &&
      truthyStr p.expectedHighTime && truthyStr p.expectedLowTime

/-- The `rr_target_declared` verdict built in `listWithExtras`. -/
def rrRule (settings : RuleSettings) (plan : Option PreTradePlan) : RuleCheck :=
  { key := "rr_target_declared"
    title := "RR Target Declared (≥ " ++ jsNumToString settings.minRRAllowed ++ ")"
    description := some "Must declare RR target/plan for first trade of the day"
    pass := if settings.requireFirstTradeGoal then rrOk settings plan else true
    value := some (match plan with
      | some p => .str ("RR " ++ jsNumToString (some p.rrTarget))
      | none => .nullv)
    limit := some (.num settings.minRRAllowed)
    level := some (if rrOk settings plan then .info else .warning)
    notes := some (match plan with
      | some p => jsNumToString (some p.plannedTrades) ++ " trades • " ++ p.mood
      | none => "RR target/plan not declared") }

/-- The `journal_before_new_trade` verdict built in `listWithExtras`. -/
def journalRule (settings : RuleSettings) (dayJournals : List TradeJournalEntry) : RuleCheck :=
  { key := "journal_before_new_trade"
    title := "Journal before new trade"
    description := some "Must write journal before opening a new trade"
    pass := if settings.requireJournalBeforeNewTrade then decide (0 < dayJournals.length) else true
    value := some (.num (some dayJournals.length))
    limit := some (.num (some (if settings.requireJournalBeforeNewTrade then 1 else 0)))
    level := some (if settings.requireJournalBeforeNewTrade ∧ dayJournals.length = 0 then
      .warning else .info)
    notes := some (if dayJournals.length ≠ 0 then
      toString dayJournals.length ++ " entries" else "No pre-entry journal yet") }

/-- The rule appending of `listWithExtras` on one day:
`[...d.rules, rrRule, journalRule]`. -/
def withExtraRules (settings : RuleSettings) (plan : Option PreTradePlan)
    (dayJournals : List TradeJournalEntry) (dayRules : List RuleCheck) : List RuleCheck :=
  dayRules ++ [rrRule settings plan, journalRule settings dayJournals]

/-- Full evaluation of one day: the seven telemetry-driven verdicts of
`buildFakeDay` followed by the two plan/journal verdicts appended by
`listWithExtras`. -/
def evaluate (t : Telemetry) (settings : RuleSettings) (plan : Option PreTradePlan)
    (dayJournals : List TradeJournalEntry) : List RuleCheck :=
  withExtraRules settings plan dayJournals (buildFakeDayRules settings t)

-- ===== Day and Range Aggregators =====

/-- Rules of a day that passed (`day.rules.filter(r => r.pass)`). -/
def passedCount (day : ChecklistDay) : Nat := (day.rules.filter (fun r => r.pass)).length

/-- Day-level compliance rate, as computed by `DayChecklistCard` (and by
`exportRows` before percent scaling): `passed / day.rules.length`, with no
guard against an empty rules list. -/
def dayRate (day : ChecklistDay) : JsNum :=
  jsDiv (some (passedCount day : ℚ)) (some (day.rules.length : ℚ))

/-- NaN-propagating sum (`rates.reduce((a, b) => a + b, 0)`). -/
def jsSum (l : List JsNum) : JsNum := l.foldl jsAdd (some 0)

/-- Range aggregation `summary`: `(0, 0)` for an empty day list, otherwise
the arithmetic mean of each day's own rate together with the day count. -/
def rangeSummary (days : List ChecklistDay) : JsNum × Nat :=
  if days.isEmpty then (some 0, 0)
  else
    let rates := days.map dayRate
    (jsDiv (jsSum rates) (some (rates.length : ℚ)), days.length)

-- ===== Row/CSV Serializer =====

/-- A flat export row: keys in insertion order, each value either a
defined field with its textual form (`some`) or absent/undefined/null
(`none`, which `String(v ?? "")` turns into the empty string). -/
abbrev Row := List (String × Option String)

/-- Object property lookup on a row (absent key ↦ undefined ↦ `none`). -/
def rowGet (r : Row) (k : String) : Option String :=
  match r.find? (fun p => p.1 == k) with
  | some p => p.2
  | none => none

/-- Doubles every double-quote character (`s.replace(/"/g, '""')`). -/
def doubleQuotes (s : String) : String :=
  String.mk (s.toList.foldr (fun c acc => if c == '"' then '"' :: '"' :: acc else c :: acc) [])

/-- The `esc` helper of `buildCsv`: the textual form of a field, wrapped
in double quotes with embedded quotes doubled whenever it contains a
comma, a double quote, or a newline. -/
def escField (v : Option String) : String :=
  let s := v.getD ""
  if s.toList.any (fun c => c == ',' || c == '"' || c == '\n') then
    "\"" ++ doubleQuotes s ++ "\""
  else s

/-- The CSV serializer `buildCsv`: empty input yields the empty string;
otherwise the header is the first row's keys and every row emits its
values in that key order, lines joined by newline. -/
def buildCsv (rows : List Row) : String :=
  match rows with
  | [] => ""
  | r0 :: _ =>
    let headers := r0.map Prod.fst
    String.intercalate "\n"
      (String.intercalate "," headers ::
        rows.map (fun r => String.intercalate "," (headers.map (fun h => escField (rowGet r h)))))

-- ===== Plan save history =====

/-- The plan-history update performed by `handlePlanSaved` for the focused
date: `[entry, ...(prev[focusDate] || [])].slice(0, 20)`. -/
def savePlanHistory (entry : PlanHistoryEntry) (prev : List PlanHistoryEntry) :
    List PlanHistoryEntry :=
  ((entry :: prev).take 20)

/-- A history list ordered newest first by save timestamp. -/
def NewestFirst (l : List PlanHistoryEntry) : Prop :=
  l.Pairwise (fun a b => b.savedAt ≤ a.savedAt)

-- ===== Specification-side definitions (for refinement claims) =====

/-- Plan-completeness as the specification words it for
`rr_target_declared`: a plan exists for the date, its declared
reward:risk is at least `minRRAllowed`, its mood is set, its planned
trade count is positive, it has at least one planned window, and both
expected high/low times are set. -/
def rrOkSpec (settings : RuleSettings) (plan : Option PreTradePlan) : Prop :=
  ∃ p, plan = some p ∧ jsGe (some p.rrTarget) settings.minRRAllowed = true ∧
    p.mood ≠ "" ∧ 0 < p.plannedTrades ∧ p.plannedWindows ≠ [] ∧
    truthyStr p.expectedHighTime = true ∧ truthyStr p.expectedLowTime = true

/-- Quoting condition as the specification words it: the field's textual
form contains a comma, a double quote, or a newline. -/
def specQuoteNeeded (s : String) : Prop :=
  ',' ∈ s.toList ∨ '"' ∈ s.toList ∨ '\n' ∈ s.toList

instance (s : String) : Decidable (specQuoteNeeded s) := by
  unfold specQuoteNeeded; infer_instance

/-- Escaping as the specification words it: every embedded double-quote
character is doubled. -/
def specEscape (s : String) : String :=
  String.mk (s.toList.flatMap (fun c => if c = '"' then [c, c] else [c]))

/-- Per-field serialization as the specification words it. -/
def specField (v : Option String) : String :=
  match v with
  | none => ""
  | some s => if specQuoteNeeded s then "\"" ++ specEscape s ++ "\"" else s

/-- CSV serialization as the specification words it: no header for empty
input; otherwise the header is the first row's key sequence and every
data row emits its values in that key order, lines joined by newline. -/
def csvSpec (rows : List Row) : String :=
  match rows with
  | [] => ""
  | r0 :: rest =>
    let keys := r0.map Prod.fst
    let dataLine := fun (r : Row) =>
      String.intercalate "," (keys.map (fun k => specField (rowGet r k)))
    String.intercalate "\n"
      (String.intercalate "," keys :: dataLine r0 :: rest.map dataLine)

/-- Arithmetic mean of a list of JS numbers (`sum / length`). -/
def arithMean (l : List JsNum) : JsNum := jsDiv (jsSum l) (some (l.length : ℚ))

-- ===== Concrete values used by witnesses and counterexamples =====

/-- Default settings of the component (the `useState<RuleSettings>`
initial value). -/
def defaultSettings : RuleSettings :=
  { maxRiskPercent := some 5
    maxPositions := some 5
    maxLotsPerTrade := some 1
    maxSLPercent := some 2
    maxDailyDDPercent := some 5
    minRRAllowed := some (3 / 2)
    allowedSessions :=
      [ { start := "07:00", stop := "11:00", tz := "Asia/Ho_Chi_Minh", label := some "London AM" },
        { start := "19:00", stop := "23:00", tz := "Asia/Ho_Chi_Minh", label := some "NY" } ]
    violateOutsideSession := true
    maxSLTPChangePercent := some 10
    requireFirstTradeGoal := true
    requireJournalBeforeNewTrade := true }

/-- A passing verdict used to build concrete days. -/
def passingRule : RuleCheck :=
  { key := "stop_loss_required", title := "Stop Loss Required", description := none,
    pass := true, level := some .info, value := none, limit := none, notes := none }

/-- A concrete day whose rules list is empty. -/
def emptyRulesDay : ChecklistDay :=
  { date := "2025-01-01", trader := "trader_01", equityOpen := none, equityClose := none,
    ddPercent := none, journalUrl := none, rules := [], tradesCount := 0 }

/-- A concrete day with a single passing rule. -/
def oneRuleDay : ChecklistDay :=
  { emptyRulesDay with date := "2025-01-02", rules := [passingRule] }

/-- A record whose `require_first_trade_goal` payload entry is present but
malformed: the string `"false"` instead of a boolean. -/
def malformedGoalRule : APIRule :=
  { id := 1, account_number := 5440722, name := "First Trade Must Have Goal",
    description := none,
    condition := [("require_first_trade_goal", JVal.jstr "false")],
    created_at := none, updated_at := none }

/-- Base settings with the first-trade-goal flag off. -/
def baseNoGoal : RuleSettings := { defaultSettings with requireFirstTradeGoal := false }

/-- A backend record whose name matches no category of the reverse
mapping (journal records are read by the forward mapping but have no
branch in `saveSettingsToBackend`). -/
def journalNameRule : APIRule :=
  { id := 2, account_number := 5440722, name := "Journal Before New Trade",
    description := none,
    condition := [("require_journal_before_new_trade", JVal.jbool true)],
    created_at := none, updated_at := none }

/-- A concrete complete pre-trade plan. -/
def samplePlan : PreTradePlan :=
  { mood := "Calm", plannedTrades := 1,
    plannedWindows := [{ start := "09:00", stop := "10:00", label := some "Setup A" }],
    expectedHighTime := some "10:00", expectedLowTime := some "14:00",
    rrTarget := 2, notes := none, submittedAt := "2025-01-01T07:00:00Z" }

/-- A concrete plan-history entry. -/
def samplePlanSave : PlanHistoryEntry :=
  { id := "2025-01-01-1735689600000", savedAt := 1735689600000, plan := samplePlan }

-- ===== Shared helper lemmas =====

/-- Adding a JS number to 0 on the left is the identity (NaN included). -/
theorem jsAdd_zero_left (x : JsNum) : jsAdd (some 0) x = x := by
  cases x <;> simp [jsAdd]

/-- Dividing a JS number by 1 is the identity (NaN included). -/
theorem jsDiv_one (x : JsNum) : jsDiv x (some 1) = x := by
  cases x <;> simp [jsDiv]

/-- The boolean `rrOk` test agrees with the specification-side
plan-completeness condition. -/
theorem rrOk_iff (s : RuleSettings) (plan : Option PreTradePlan) :
    rrOk s plan = true ↔ rrOkSpec s plan := by
  cases plan with
  | none => simp [rrOk, rrOkSpec]
  | some p =>
    simp [rrOk, rrOkSpec, List.length_pos, and_assoc]

/-- Quote-doubling by fold agrees with quote-doubling by flat map. -/
theorem foldr_doubleQuotes_eq (l : List Char) :
    l.foldr (fun c acc => if c == '"' then '"' :: '"' :: acc else c :: acc) [] =
      l.flatMap (fun c => if c = '"' then [c, c] else [c]) := by
  induction l with
  | nil => rfl
  | cons c t ih =>
    simp only [List.foldr_cons, List.flatMap_cons, ih]
    by_cases hc : c = '"'
    · simp [hc]
    · simp [hc]

/-- Unfolding of the `esc` helper at a defined field. -/
theorem escField_some (s : String) :
    escField (some s) =
      if s.toList.any (fun c => c == ',' || c == '"' || c == '\n') then
        "\"" ++ doubleQuotes s ++ "\""
      else s := rfl

/-- The `esc` helper of `buildCsv` agrees with the specification-side
per-field rule. -/
theorem escField_eq_specField (v : Option String) : escField v = specField v := by
  cases v with
  | none => rfl
  | some s =>
    have hq : (s.toList.any (fun c => c == ',' || c == '"' || c == '\n') = true) ↔
        specQuoteNeeded s := by
      simp only [List.any_eq_true, Bool.or_eq_true, beq_iff_eq, specQuoteNeeded]
      constructor
      · rintro ⟨c, hc, h⟩
        rcases h with (rfl | rfl) | rfl
        · exact Or.inl hc
        · exact Or.inr (Or.inl hc)
        · exact Or.inr (Or.inr hc)
      · rintro (h | h | h)
        · exact ⟨_, h, Or.inl (Or.inl rfl)⟩
        · exact ⟨_, h, Or.inl (Or.inr rfl)⟩
        · exact ⟨_, h, Or.inr rfl⟩
    have hesc : doubleQuotes s = specEscape s :=
      congrArg String.mk (foldr_doubleQuotes_eq s.toList)
    rw [escField_some]
    show _ = if specQuoteNeeded s then "\"" ++ specEscape s ++ "\"" else s
    by_cases h : specQuoteNeeded s
    · rw [if_pos (hq.mpr h), if_pos h, hesc]
    · rw [if_neg (fun hx => h (hq.mp hx)), if_neg h]

-- ===== Claim theorems =====

/-- C1 counterexample: on a concrete day with an empty rules list the
day-level compliance rate is NaN (`none`), not 0, so the division is not
guarded. -/
theorem dayRate_empty_not_zero :
    dayRate emptyRulesDay ≠ some 0 ∧ dayRate emptyRulesDay = none := by
  constructor
  · decide
  · rfl

/-- C1 (corrected): the division `passed / total` is not guarded: with at
least one rule the day-level rate is `passed / total`, and with an empty
rules list it is NaN (`none`), not 0. -/
theorem dayRate_unguarded (day : ChecklistDay) :
    (day.rules ≠ [] → dayRate day = some ((passedCount day : ℚ) / (day.rules.length : ℚ)))
  ∧ (day.rules = [] → dayRate day = none) := by
  constructor
  · intro h
    have h0 : day.rules.length ≠ 0 := fun hx => h (List.length_eq_zero.mp hx)
    have hlen : (day.rules.length : ℚ) ≠ 0 := Nat.cast_ne_zero.mpr h0
    simp [dayRate, jsDiv, hlen]
  · intro h
    simp [dayRate, jsDiv, h, passedCount]

/-- C1 witness: the amended statement evaluated on concrete days. -/
theorem dayRate_unguarded_witness :
    dayRate oneRuleDay = some 1 ∧ dayRate emptyRulesDay = none := by
  refine ⟨?_, (dayRate_unguarded emptyRulesDay).2 rfl⟩
  have h := (dayRate_unguarded oneRuleDay).1 (by decide)
  rw [h]
  norm_num [passedCount, oneRuleDay, emptyRulesDay, passingRule]

/-- C2 counterexample: a present but malformed payload entry (the string
"false" in place of the boolean `require_first_trade_goal`) does not
leave the base value untouched: truthiness coercion overwrites `false`
with `true`. -/
theorem parseRules_malformed_overwrites :
    (parseRulesToSettings [malformedGoalRule] baseNoGoal).requireFirstTradeGoal = true ∧
      baseNoGoal.requireFirstTradeGoal = false := by
  constructor
  · decide
  · rfl

/-- C2 (corrected): the forward reconciliation never throws (it is a
total function) and merges as follows: every field whose matching payload
entry is absent or null keeps the base value; a present non-null entry
(for the sessions list: a truthy entry) always overwrites after JS
coercion, so a malformed present entry can replace the base value. -/
theorem parseRules_merge_absent_or_null (rules : List APIRule) (base : RuleSettings) :
    (fieldNN (byNameIn rules "Max Risk") "max_risk_percent" = none →
      (parseRulesToSettings rules base).maxRiskPercent = base.maxRiskPercent)
  ∧ (fieldNN (byNameIn rules "No Overtrade") "max_positions" = none →
      (parseRulesToSettings rules base).maxPositions = base.maxPositions)
  ∧ (fieldNN (byNameIn rules "No Overtrade") "max_lots_per_trade" = none →
      (parseRulesToSettings rules base).maxLotsPerTrade = base.maxLotsPerTrade)
  ∧ (fieldNN (byNameIn rules "Max SL") "max_sl_percent" = none →
      (parseRulesToSettings rules base).maxSLPercent = base.maxSLPercent)
  ∧ (fieldNN (byNameIn rules "Max Daily DD") "max_dd_percent" = none →
      (parseRulesToSettings rules base).maxDailyDDPercent = base.maxDailyDDPercent)
  ∧ (fieldNN (byNameIn rules "RR Target Declared") "min_rr_allowed" = none →
      (parseRulesToSettings rules base).minRRAllowed = base.minRRAllowed)
  ∧ ((∀ v, sessionsPayload rules = some v → jsTruthy v = false) →
      (parseRulesToSettings rules base).allowedSessions = base.allowedSessions)
  ∧ (fieldNN (byNameIn rules "Allowed Trading Sessions") "violate_outside_session" = none →
      (parseRulesToSettings rules base).violateOutsideSession = base.violateOutsideSession)
  ∧ (fieldNN (byNameIn rules "First Trade Must Have Goal") "require_first_trade_goal" = none →
      (parseRulesToSettings rules base).requireFirstTradeGoal = base.requireFirstTradeGoal)
  ∧ (fieldNN (byNameIn rules "Max SL/TP Change") "max_sl_tp_change_percent" = none →
      (parseRulesToSettings rules base).maxSLTPChangePercent = base.maxSLTPChangePercent)
  ∧ (fieldNN (rules.find? (fun r => strIncludes (strLower r.name) "journal"))
        "require_journal_before_new_trade" = none →
      (parseRulesToSettings rules base).requireJournalBeforeNewTrade =
        base.requireJournalBeforeNewTrade) := by
  refine ⟨?_, ?_, ?_, ?_, ?_, ?_, ?_, ?_, ?_, ?_, ?_⟩
  · intro h; simp [parseRulesToSettings, h]
  · intro h; simp [parseRulesToSettings, h]
  · intro h; simp [parseRulesToSettings, h]
  · intro h; simp [parseRulesToSettings, h]
  · intro h; simp [parseRulesToSettings, h]
  · intro h; simp [parseRulesToSettings, h]
  · intro h
    cases hv : sessionsPayload rules with
    | none => simp [parseRulesToSettings, hv]
    | some v => simp [parseRulesToSettings, hv, h v hv]
  · intro h; simp [parseRulesToSettings, h]
  · intro h; simp [parseRulesToSettings, h]
  · intro h; simp [parseRulesToSettings, h]
  · intro h; simp [parseRulesToSettings, h]

/-- C2 witness: with no records at all every payload entry is absent, so
every settings field keeps its base value. -/
theorem parseRules_merge_absent_or_null_witness :
    (parseRulesToSettings [] defaultSettings).maxRiskPercent = defaultSettings.maxRiskPercent ∧
    (parseRulesToSettings [] defaultSettings).maxPositions = defaultSettings.maxPositions ∧
    (parseRulesToSettings [] defaultSettings).maxLotsPerTrade = defaultSettings.maxLotsPerTrade ∧
    (parseRulesToSettings [] defaultSettings).maxSLPercent = defaultSettings.maxSLPercent ∧
    (parseRulesToSettings [] defaultSettings).maxDailyDDPercent =
      defaultSettings.maxDailyDDPercent ∧
    (parseRulesToSettings [] defaultSettings).minRRAllowed = defaultSettings.minRRAllowed ∧
    (parseRulesToSettings [] defaultSettings).allowedSessions = defaultSettings.allowedSessions ∧
    (parseRulesToSettings [] defaultSettings).violateOutsideSession =
      defaultSettings.violateOutsideSession ∧
    (parseRulesToSettings [] defaultSettings).requireFirstTradeGoal =
      defaultSettings.requireFirstTradeGoal ∧
    (parseRulesToSettings [] defaultSettings).maxSLTPChangePercent =
      defaultSettings.maxSLTPChangePercent ∧
    (parseRulesToSettings [] defaultSettings).requireJournalBeforeNewTrade =
      defaultSettings.requireJournalBeforeNewTrade := by
  have h := parseRules_merge_absent_or_null [] defaultSettings
  exact ⟨h.1 rfl, h.2.1 rfl, h.2.2.1 rfl, h.2.2.2.1 rfl, h.2.2.2.2.1 rfl, h.2.2.2.2.2.1 rfl,
    h.2.2.2.2.2.2.1 (fun v hv => Option.noConfusion hv), h.2.2.2.2.2.2.2.1 rfl,
    h.2.2.2.2.2.2.2.2.1 rfl, h.2.2.2.2.2.2.2.2.2.1 rfl, h.2.2.2.2.2.2.2.2.2.2 rfl⟩

/-- C9 (confirmed): forward reconciliation of an empty record collection
is the identity on the base settings. -/
theorem parseRules_empty_identity (base : RuleSettings) :
    parseRulesToSettings [] base = base := rfl

/-- C3 (confirmed): for every telemetry, settings, and optional
plan/journal context, the evaluation produces exactly the nine required
verdict keys, each exactly once, in exactly the required order. -/
theorem evaluate_keys_fixed (t : Telemetry) (s : RuleSettings) (plan : Option PreTradePlan)
    (dayJournals : List TradeJournalEntry) :
    (evaluate t s plan dayJournals).map (fun r => r.key) =
      ["max_risk_percent", "no_overtrade", "stop_loss_required", "max_sl_percent",
        "max_daily_dd", "session_allowed", "max_sl_tp_change_percent",
        "rr_target_declared", "journal_before_new_trade"] := rfl

/-- C4 (confirmed): the CSV serializer meets its contract on every row
list: it agrees with the specification-side serializer (empty input gives
the empty string with no header; the header is the first row's keys in
insertion order; every data row emits its values in that same key order;
a field containing a comma, double quote, or newline is wrapped in double
quotes with embedded quotes doubled; absent values serialize to the empty
string; lines are joined by newline). -/
theorem buildCsv_meets_contract (rows : List Row) : buildCsv rows = csvSpec rows := by
  cases rows with
  | nil => rfl
  | cons r0 rest =>
    simp only [buildCsv, csvSpec, List.map_cons, escField_eq_specField]

/-- C5 (confirmed): the range aggregation returns (0, 0) on the empty
list; on a non-empty list it returns the arithmetic mean of each day's
own rate (not a pooled passed/total ratio over all rules) together with
the day count; on a singleton it returns that day's own rate and 1. -/
theorem rangeSummary_spec :
    rangeSummary [] = (some 0, 0)
  ∧ (∀ days : List ChecklistDay, days ≠ [] →
      rangeSummary days = (arithMean (days.map dayRate), days.length))
  ∧ (∀ d : ChecklistDay, rangeSummary [d] = (dayRate d, 1)) := by
  refine ⟨rfl, ?_, ?_⟩
  · intro days h
    simp [rangeSummary, arithMean, h]
  · intro d
    simp [rangeSummary, jsSum, jsAdd_zero_left, jsDiv_one]

/-- C5 witness: the non-empty branch of the range summary evaluated on a
concrete singleton range. -/
theorem rangeSummary_spec_witness :
    rangeSummary [oneRuleDay] = (arithMean ([oneRuleDay].map dayRate), 1) :=
  rangeSummary_spec.2.1 [oneRuleDay] (by simp)

/-- C6 (confirmed): with `requireFirstTradeGoal` set, the
`rr_target_declared` verdict passes iff a complete plan was declared for
the date (plan exists, declared reward:risk at least `minRRAllowed`, mood
set, positive planned trade count, at least one planned window, both
expected high/low times set); with the flag unset it always passes; with
no plan the verdict carries level warning and a note that no plan was
declared (so with the flag set it fails). -/
theorem rr_target_declared_contract (s : RuleSettings) (plan : Option PreTradePlan) :
    ((rrRule s plan).pass = true ↔ (s.requireFirstTradeGoal = false ∨ rrOkSpec s plan))
  ∧ ((rrRule s none).pass = !s.requireFirstTradeGoal)
  ∧ (rrRule s none).level = some Level.warning
  ∧ (rrRule s none).notes = some "RR target/plan not declared" := by
  refine ⟨?_, ?_, rfl, rfl⟩
  · cases hf : s.requireFirstTradeGoal with
    | false => simp [rrRule, hf]
    | true => simp [rrRule, hf, rrOk_iff]
  · cases hf : s.requireFirstTradeGoal <;> simp [rrRule, rrOk, hf]

/-- C7 (confirmed): the reverse mapping fails with the named
configuration error when no record collection has been loaded, patching
nothing in that case, and a loaded record whose name matches no known
category is passed through to the output collection unchanged. -/
theorem saveSettings_config_error_and_passthrough :
    (∀ s : RuleSettings, saveSettingsToBackend s none =
      Except.error "No server rules loaded yet")
  ∧ (∀ (s : RuleSettings) (rules : List APIRule) (r : APIRule), r ∈ rules →
      matchesNoCategory r.name = true →
        saveSettingsToBackend s (some rules) = Except.ok (rules.map (patchRule s)) ∧
          patchRule s r = r) := by
  refine ⟨fun s => rfl, ?_⟩
  intro s rules r hmem hno
  refine ⟨?_, ?_⟩
  · cases rules with
    | nil => cases hmem
    | cons a l => rfl
  · simp only [matchesNoCategory, Bool.not_eq_true', Bool.or_eq_false_iff] at hno
    obtain ⟨⟨⟨⟨⟨⟨⟨h1, h2⟩, h3⟩, h4⟩, h5⟩, h6⟩, h7⟩, h8⟩ := hno
    simp [patchRule, h1, h2, h3, h4, h5, h6, h7, h8]

/-- C7 witness: a journal-named record matches no category of the reverse
mapping and survives a save unchanged. -/
theorem saveSettings_passthrough_witness :
    saveSettingsToBackend defaultSettings (some [journalNameRule]) =
      Except.ok [journalNameRule] := by
  obtain ⟨hok, hfix⟩ := saveSettings_config_error_and_passthrough.2 defaultSettings
    [journalNameRule] journalNameRule (by simp) (by decide)
  rw [hok, List.map_cons, List.map_nil, hfix]

/-- C8 (confirmed): every plan save keeps the retained history for the
date at length at most 20, puts the just-saved entry at the head, and
preserves newest-first ordering whenever the previous history was ordered
and the new entry is at least as recent as every retained one. -/
theorem savePlanHistory_bounded_newest_first (entry : PlanHistoryEntry)
    (prev : List PlanHistoryEntry) (hsorted : NewestFirst prev)
    (hnew : ∀ e ∈ prev, e.savedAt ≤ entry.savedAt) :
    (savePlanHistory entry prev).length ≤ 20 ∧
      (savePlanHistory entry prev).head? = some entry ∧
      NewestFirst (savePlanHistory entry prev) := by
  refine ⟨?_, rfl, ?_⟩
  · simp [savePlanHistory]
  · have hall : NewestFirst (entry :: prev) := List.pairwise_cons.mpr ⟨hnew, hsorted⟩
    exact List.Pairwise.sublist (List.take_sublist 20 (entry :: prev)) hall

/-- C8 witness: saving a concrete entry over an empty history. -/
theorem savePlanHistory_witness :
    (savePlanHistory samplePlanSave []).length ≤ 20 ∧
      (savePlanHistory samplePlanSave []).head? = some samplePlanSave ∧
      NewestFirst (savePlanHistory samplePlanSave []) :=
  savePlanHistory_bounded_newest_first samplePlanSave [] List.Pairwise.nil (by simp)

/-- C10 (confirmed): with `requireFirstTradeGoal` unset and the
plan-completeness test failing (for instance with no plan), the
`rr_target_declared` verdict passes while carrying warning severity. -/
theorem rr_pass_can_carry_warning (s : RuleSettings) (plan : Option PreTradePlan)
    (hflag : s.requireFirstTradeGoal = false) (hok : rrOk s plan = false) :
    (rrRule s plan).pass = true ∧ (rrRule s plan).level = some Level.warning := by
  constructor <;> simp [rrRule, hflag, hok]

/-- C10 witness: the default settings with the flag off and no plan. -/
theorem rr_pass_can_carry_warning_witness :
    (rrRule baseNoGoal none).pass = true ∧
      (rrRule baseNoGoal none).level = some Level.warning :=
  rr_pass_can_carry_warning baseNoGoal none rfl rfl

end TradingChecklist
